import Mathlib

/-!
Shallow embedding of the Hospital-management stress prediction engine
(`backend/app/services/prediction_engine.py`, `backend/app/services/rag_system.py`,
data model in `backend/app/models.py`).

Modelling conventions:
* Python floats are modelled as exact rationals (`ℚ`); machine floats are
  approximations of these reference values.
* Calendar dates are modelled as integers (day numbers); `datetime.now().date()`
  becomes an explicit `baseDate : Int` parameter and the weekday of that date an
  explicit `baseWeekday : Nat` (`0` = Monday, as in Python's `date.weekday()`).
  `generated_at` wall-clock timestamps are not modelled (no claim concerns them).
* The external text-generation backend (`vertex_ai_client.generate_content` plus
  JSON parsing) is modelled by an explicit argument: `none` stands for
  "unavailable / raised / malformed / falsy response" (the `except`/fallback
  path), `some l` for a successfully parsed JSON array `l`.  A parsed JSON
  object is a structure of `Option` fields, mirroring `dict.get(key, default)`.
* The external history / crisis stores are modelled by explicit list arguments,
  and the Redis cache by an explicit association list threaded through calls.
* `int(x)` on a Python float truncates toward zero: `pyInt` below.
* Python's `sorted(..., key=k, reverse=True)` is a stable sort placing larger
  keys first.  It is embedded as `List.insertionSort` with the reflexive total
  relation `k b ≤ k a`: any stable sort with this comparison computes the same
  list, and `insertionSort` is stable and structurally recursive (so proofs can
  evaluate it).
-/

namespace Hospital

/-- Truncation toward zero, the behaviour of Python's `int()` on a float. -/
def pyInt (q : ℚ) : ℤ := if 0 ≤ q then ⌊q⌋ else -⌊-q⌋

/-- Record of one hospital day (`models.HospitalRecord`).  Numeric fields are
integers; `-1` is the sentinel for a missing value. -/
structure HospitalRecord where
  date : Int
  admissions : Int
  beds_occupied : Int
  staff_on_duty : Int
  overload_flag : Bool
deriving DecidableEq, Repr

/-- One step of pandas forward-fill on a single numeric column, as set up by
`_handle_missing_data`: a value equal to the sentinel `-1` (or `None`) was
turned into `NaN`, then `ffill()` replaces it with the last valid value and the
trailing `fillna(0)` turns a leading `NaN` into `0`.  The carried state is the
last valid (non-sentinel) value seen so far, if any. -/
def ffill_value (last : Option Int) (v : Int) : Int × Option Int :=
  if v = -1 then (last.getD 0, last) else (v, some v)

/-- Forward-fill of the three numeric columns of a record list, carrying one
state per column.  Column-wise pandas `ffill` is equivalent to this single
left-to-right pass because the three columns are filled independently. -/
def ffill_records (lastA lastB lastS : Option Int) :
    List HospitalRecord → List HospitalRecord
  | [] => []
  | r :: rs =>
    let a := ffill_value lastA r.admissions
    let b := ffill_value lastB r.beds_occupied
    let s := ffill_value lastS r.staff_on_duty
    { r with admissions := a.1, beds_occupied := b.1, staff_on_duty := s.1 } ::
      ffill_records a.2 b.2 s.2 rs

/-- `PredictionEngine._handle_missing_data`: replace `None`/`-1` values by the
previous valid value in each numeric column (forward fill), `0` when there is
no previous valid value.  Dates and overload flags pass through unchanged.
Note the source replaces only `[None, -1]`, not arbitrary negative values. -/
def handle_missing_data (data : List HospitalRecord) : List HospitalRecord :=
  ffill_records none none none data

/-- `PredictionEngine.total_bed_capacity` default. -/
def total_bed_capacity : ℤ := 500

/-- `PredictionEngine._calculate_bed_stress`: occupancy as a percentage of
total capacity, clamped to `[0, 100]`. -/
def calculate_bed_stress (predicted_beds : ℤ) : ℚ :=
  if total_bed_capacity ≤ 0 then 0
  else max 0 (min 100 ((predicted_beds : ℚ) / (total_bed_capacity : ℚ) * 100))

/-- `PredictionEngine._assess_data_quality` penalty of one record: `-5` for any
negative raw field, `-2` for occupancy above 150% capacity, `-1` for more than
500 admissions. -/
def record_penalty (r : HospitalRecord) : ℚ :=
  (if r.admissions < 0 ∨ r.beds_occupied < 0 ∨ r.staff_on_duty < 0 then 5 else 0)
    + (if (r.beds_occupied : ℚ) > (total_bed_capacity : ℚ) * (3/2) then 2 else 0)
    + (if r.admissions > 500 then 1 else 0)

/-- `PredictionEngine._assess_data_quality`. -/
def assess_data_quality (data : List HospitalRecord) : ℚ :=
  if data = [] then 0
  else max 0 (min 100 (100 - (data.map record_penalty).sum))

/-- `PredictionEngine._assess_data_completeness`: step function of history length. -/
def assess_data_completeness (data : List HospitalRecord) : ℚ :=
  if data = [] then 0
  else if data.length ≥ 180 then 100
  else if data.length ≥ 90 then 80
  else if data.length ≥ 30 then 60
  else if data.length ≥ 7 then 40
  else 20

/-- `PredictionEngine.calculate_confidence`: weighted average
`0.4·quality + 0.3·completeness + 0.3·accuracy`, clamped to `[0, 100]`. -/
def calculate_confidence (data_quality data_completeness historical_accuracy : ℚ) : ℚ :=
  max 0 (min 100
    (data_quality * (4/10) + data_completeness * (3/10) + historical_accuracy * (3/10)))

/-- One parsed entry of the backend's JSON day array.  `none` fields model
missing dictionary keys, read via `day_data.get(key, default)`. -/
structure DayData where
  predicted_beds : Option Int
  confidence : Option ℚ
deriving DecidableEq, Repr

/-- `PredictionEngine._generate_fallback_forecast`: with no history, a default
of 200 beds at confidence 30 per day; otherwise the 14-day trailing average of
occupancy with a weekday multiplier (×1.1 weekday, ×0.9 weekend) at
confidence 60. -/
def generate_fallback_forecast (data : List HospitalRecord) (days_ahead : Nat)
    (baseWeekday : Nat) : List DayData :=
  if data = [] then
    (List.range days_ahead).map (fun _ => ⟨some 200, some 30⟩)
  else
    let recent := if data.length > 14 then data.drop (data.length - 14) else data
    let avg_beds : ℚ := ((recent.map (·.beds_occupied)).sum : ℤ) / (recent.length : ℚ)
    (List.range days_ahead).map (fun i =>
      let multiplier : ℚ := if (baseWeekday + i + 1) % 7 < 5 then 11/10 else 9/10
      ⟨some (pyInt (avg_beds * multiplier)), some 60⟩)

/-- `PredictionEngine._generate_ai_forecast`: on a usable backend response the
parsed array truncated to `days_ahead` entries (`forecast_data[:days_ahead]`),
otherwise the deterministic fallback forecast. -/
def generate_ai_forecast (historical_data : List HospitalRecord) (days_ahead : Nat)
    (baseWeekday : Nat) (response : Option (List DayData)) : List DayData :=
  match response with
  | some forecast_data => forecast_data.take days_ahead
  | none => generate_fallback_forecast historical_data days_ahead baseWeekday

/-- `models.DailyPrediction` (without the wall-clock part of `date`). -/
structure DailyPrediction where
  date : Int
  predicted_beds : Int
  bed_stress : ℚ
  confidence : ℚ
  is_high_risk : Bool
deriving DecidableEq, Repr

/-- `models.BedForecast` (without `generated_at`). -/
structure BedForecast where
  predictions : List DailyPrediction
  overall_confidence : ℚ
deriving DecidableEq, Repr

/-- The prediction-building loop of `forecast_bed_demand`
(`for i, day_data in enumerate(forecast_data)`), with `i` carried explicitly:
day `i` is dated `baseDate + i + 1` and flagged high-risk iff its bed stress
exceeds 85. -/
def build_predictions (baseDate : Int) : Nat → List DayData → List DailyPrediction
  | _, [] => []
  | i, day_data :: rest =>
    let predicted_beds := day_data.predicted_beds.getD 0
    let bed_stress := calculate_bed_stress predicted_beds
    { date := baseDate + i + 1
      predicted_beds := predicted_beds
      bed_stress := bed_stress
      confidence := day_data.confidence.getD 50
      is_high_risk := decide (bed_stress > 85) } :: build_predictions baseDate (i + 1) rest

/-- `PredictionEngine.forecast_bed_demand` (uncached path): repair missing
data, obtain the day array from the backend or the fallback, build the daily
predictions, and blend the overall confidence from data quality, completeness
and the fixed historical-accuracy constant 80. -/
def forecast_bed_demand (days_ahead : Nat) (historical_data : List HospitalRecord)
    (baseDate : Int) (baseWeekday : Nat) (response : Option (List DayData)) : BedForecast :=
  let processed_data := handle_missing_data historical_data
  let forecast_data := generate_ai_forecast processed_data days_ahead baseWeekday response
  { predictions := build_predictions baseDate 0 forecast_data
    overall_confidence :=
      calculate_confidence (assess_data_quality processed_data)
        (assess_data_completeness processed_data) 80 }

/-- Average bed stress of a forecast, as computed in
`_generate_impact_summary` (`sum(p.bed_stress ...) / len(...)`). -/
def avg_bed_stress (f : BedForecast) : ℚ :=
  ((f.predictions.map (·.bed_stress)).sum) / (f.predictions.length : ℚ)

/-- `PredictionEngine._calculate_base_staff_risk`: risk from the
staff-per-admission ratio against the optimal (0.5), warning (0.3) and
critical (0.2) thresholds; no staff at all means maximal risk. -/
def calculate_base_staff_risk (predicted_admissions current_staff : ℤ) : ℚ :=
  if current_staff ≤ 0 then 100
  else
    let staff_per_admission : ℚ :=
      (current_staff : ℚ) / ((max 1 predicted_admissions : ℤ) : ℚ)
    if staff_per_admission ≥ 1/2 then
      max 0 (20 * (1 - (staff_per_admission - 1/2) / (1/2)))
    else if staff_per_admission ≥ 3/10 then
      20 + ((1/2 - staff_per_admission) / (1/2 - 3/10)) * 30
    else if staff_per_admission ≥ 1/5 then
      50 + ((3/10 - staff_per_admission) / (3/10 - 1/5)) * 30
    else
      80 + min 20 ((1/5 - staff_per_admission) * 100)

/-- The similar-conditions filter of `_analyze_overload_patterns`:
historical overload records within ±20 admissions and ±5 staff. -/
def similar_conditions (predicted_admissions current_staff : ℤ)
    (historical_overloads : List HospitalRecord) : List HospitalRecord :=
  historical_overloads.filter (fun r =>
    decide ((r.admissions - predicted_admissions).natAbs ≤ 20) &&
      decide ((r.staff_on_duty - current_staff).natAbs ≤ 5))

/-- `PredictionEngine._analyze_general_overload_trends`: compare current
conditions to the average overload conditions, base risk 40 scaled by the
admission/staff ratio capped at ×2, clamped to 90. -/
def analyze_general_overload_trends (predicted_admissions current_staff : ℤ)
    (historical_overloads : List HospitalRecord) : ℚ :=
  if historical_overloads = [] then 50
  else
    let n : ℚ := (historical_overloads.length : ℚ)
    let avg_overload_admissions : ℚ :=
      ((historical_overloads.map (·.admissions)).sum : ℤ) / n
    let avg_overload_staff : ℚ :=
      ((historical_overloads.map (·.staff_on_duty)).sum : ℤ) / n
    let admission_ratio := (predicted_admissions : ℚ) / max 1 avg_overload_admissions
    let staff_ratio := (current_staff : ℚ) / max 1 avg_overload_staff
    let risk_multiplier := admission_ratio / max (1/10) staff_ratio
    min 90 (40 * min 2 risk_multiplier)

/-- `PredictionEngine._analyze_overload_patterns`: frequency of overloads in
similar conditions, capped at 90; default 50 without history; general-trend
fallback when nothing similar is found. -/
def analyze_overload_patterns (predicted_admissions current_staff : ℤ)
    (historical_overloads : List HospitalRecord) : ℚ :=
  if historical_overloads = [] then 50
  else
    let sim := similar_conditions predicted_admissions current_staff historical_overloads
    if sim = [] then
      analyze_general_overload_trends predicted_admissions current_staff historical_overloads
    else
      min 90 ((sim.length : ℚ) / ((max 1 historical_overloads.length : ℕ) : ℚ) * 100)

/-- `PredictionEngine._identify_risk_factors`: the deterministic ordered
checklist of human-readable reasons; never empty thanks to the final generic
entry.  `today` models `datetime.now()` for the 30-day recency window. -/
def identify_risk_factors (predicted_admissions current_staff : ℤ) (risk_score : ℚ)
    (historical_overloads : List HospitalRecord) (today : Int) : List String :=
  let staff_per_admission : ℚ :=
    (current_staff : ℚ) / ((max 1 predicted_admissions : ℤ) : ℚ)
  let ratio_factors :=
    if staff_per_admission < 1/5 then
      ["Severely understaffed for predicted admission volume"]
    else if staff_per_admission < 3/10 then ["Below optimal staffing levels"]
    else []
  let volume_factors :=
    (if predicted_admissions > 300 then ["High admission volume predicted"] else []) ++
      (if current_staff < 20 then ["Low absolute staff count"] else [])
  let history_factors :=
    if historical_overloads = [] then []
    else
      (if (historical_overloads.filter (fun r => decide (today - r.date ≤ 30))).length > 3
       then ["Recent history of frequent overload events"] else []) ++
        (let avg_overload_admissions : ℚ :=
          ((historical_overloads.map (·.admissions)).sum : ℤ) /
            (historical_overloads.length : ℚ)
         if (predicted_admissions : ℚ) > avg_overload_admissions * (9/10)
         then ["Admission volume approaching historical overload levels"] else [])
  let level_factors :=
    if risk_score > 90 then ["Critical risk level - immediate action required"]
    else if risk_score > 75 then ["High risk level - proactive measures recommended"]
    else []
  let factors := ratio_factors ++ volume_factors ++ history_factors ++ level_factors
  if factors = [] then
    if risk_score > 50 then
      ["Moderate risk based on current staffing and admission predictions"]
    else ["Low risk - adequate staffing for predicted volume"]
  else factors

/-- `PredictionEngine._calculate_staff_risk_confidence`: base 70 blended with a
step function of sample size and a recency bonus, halved and capped at 100. -/
def calculate_staff_risk_confidence (historical_overloads : List HospitalRecord)
    (today : Int) : ℚ :=
  let data_confidence : ℚ :=
    if historical_overloads.length ≥ 50 then 100
    else if historical_overloads.length ≥ 20 then 85
    else if historical_overloads.length ≥ 10 then 70
    else if historical_overloads.length ≥ 5 then 55
    else 40
  let recency_bonus : ℚ :=
    min 20 (((historical_overloads.filter
      (fun r => decide (today - r.date ≤ 90))).length : ℚ) * 2)
  min 100 ((70 + data_confidence + recency_bonus) / 2)

/-- `models.StaffRiskScore` (without `generated_at`). -/
structure StaffRiskScore where
  risk_score : ℚ
  confidence : ℚ
  is_critical : Bool
  contributing_factors : List String
deriving DecidableEq, Repr

/-- `PredictionEngine.calculate_staff_risk` (uncached path): blend of base and
pattern risk (0.6/0.4), clamped to `[0, 100]`; critical iff above 75. -/
def calculate_staff_risk (predicted_admissions current_staff : ℤ)
    (historical_overloads : List HospitalRecord) (today : Int) : StaffRiskScore :=
  let base_risk := calculate_base_staff_risk predicted_admissions current_staff
  let pattern_risk :=
    analyze_overload_patterns predicted_admissions current_staff historical_overloads
  let risk_score := max 0 (min 100 (base_risk * (6/10) + pattern_risk * (4/10)))
  { risk_score := risk_score
    confidence := calculate_staff_risk_confidence historical_overloads today
    is_critical := decide (risk_score > 75)
    contributing_factors :=
      identify_risk_factors predicted_admissions current_staff risk_score
        historical_overloads today }

/-- `models.Recommendation`. -/
structure Recommendation where
  title : String
  description : String
  rationale : String
  cost_estimate : ℚ
  impact_score : ℚ
  priority : Int
  implementation_time : String
deriving DecidableEq, Repr

/-- The impact-to-cost ratio computed in
`_rank_recommendations_by_impact_cost_ratio` (`rec._ratio`). -/
def impact_cost_ratio (r : Recommendation) : ℚ := r.impact_score / r.cost_estimate

/-- The cost adjustment of `_rank_recommendations_by_impact_cost_ratio`: a
non-positive cost estimate is replaced by the minimum cost 1000 (and this
replacement is stored on the returned object). -/
def adjust_cost (r : Recommendation) : Recommendation :=
  if r.cost_estimate ≤ 0 then { r with cost_estimate := 1000 } else r

/-- Comparison used by `sorted(..., key=lambda r: r._ratio, reverse=True)`. -/
def ratio_ge (a b : Recommendation) : Prop :=
  impact_cost_ratio b ≤ impact_cost_ratio a

instance : DecidableRel ratio_ge := fun a b =>
  inferInstanceAs (Decidable (impact_cost_ratio b ≤ impact_cost_ratio a))

instance : IsTotal Recommendation ratio_ge :=
  ⟨fun a b => le_total (impact_cost_ratio b) (impact_cost_ratio a)⟩

instance : IsTrans Recommendation ratio_ge :=
  ⟨fun _ _ _ h₁ h₂ => le_trans h₂ h₁⟩

/-- Comparison used by `sorted(..., key=lambda r: r.impact_score, reverse=True)`
in `_ensure_three_recommendations`. -/
def impact_ge (a b : Recommendation) : Prop := b.impact_score ≤ a.impact_score

instance : DecidableRel impact_ge := fun a b =>
  inferInstanceAs (Decidable (b.impact_score ≤ a.impact_score))

/-- The priority-assignment loop of `_rank_recommendations_by_impact_cost_ratio`
(`for i, rec in enumerate(sorted_recs): rec.priority = i + 1`), with the next
priority carried explicitly. -/
def assign_priorities (n : ℤ) : List Recommendation → List Recommendation
  | [] => []
  | r :: rs => { r with priority := n } :: assign_priorities (n + 1) rs

/-- `PredictionEngine._rank_recommendations_by_impact_cost_ratio`: replace
non-positive costs by 1000, sort descending by impact-to-cost ratio (stable),
and reassign priorities `1, 2, …` in that order. -/
def rank_recommendations_by_impact_cost_ratio
    (recommendations : List Recommendation) : List Recommendation :=
  assign_priorities 1 (List.insertionSort ratio_ge (recommendations.map adjust_cost))

/-- `PredictionEngine._generate_fallback_recommendations`: the fixed rule table
keyed on the stress levels, re-ranked by impact-to-cost ratio before being
returned. -/
def generate_fallback_recommendations (bed_stress staff_risk : ℚ) :
    List Recommendation :=
  let rec1 : Recommendation :=
    if staff_risk > 75 then
      { title := "Emergency Staff Augmentation"
        description := "Immediately call in additional nursing staff and activate on-call physicians to handle increased patient load"
        rationale := "High staff risk detected. Adding staff directly reduces patient-to-staff ratios, improving care quality and reducing overload risk. Emergency staffing protocols can be activated within hours."
        cost_estimate := 12000, impact_score := 90, priority := 1
        implementation_time := "4 hours" }
    else
      { title := "Optimize Staff Scheduling"
        description := "Review and adjust staff schedules to better align with predicted patient volumes and peak admission times"
        rationale := "Current staffing appears adequate but could be optimized. Better schedule alignment prevents future overload situations and improves efficiency without major cost increases."
        cost_estimate := 2000, impact_score := 65, priority := 1
        implementation_time := "24 hours" }
  let rec2 : Recommendation :=
    if bed_stress > 85 then
      { title := "Activate Surge Capacity Protocol"
        description := "Open additional beds in overflow areas and expedite discharge planning for stable patients"
        rationale := "High bed stress requires immediate capacity expansion. Surge protocols can quickly add 10-15% capacity while discharge acceleration frees existing beds. Combined approach maximizes available capacity."
        cost_estimate := 8000, impact_score := 85, priority := 2
        implementation_time := "6 hours" }
    else
      { title := "Enhance Discharge Planning"
        description := "Implement early discharge planning rounds and coordinate with post-acute care facilities to reduce length of stay"
        rationale := "Proactive discharge planning prevents bed shortages before they occur. Early identification of discharge candidates and coordination with external facilities reduces average length of stay by 0.5-1 days."
        cost_estimate := 5000, impact_score := 70, priority := 2
        implementation_time := "2 days" }
  let rec3 : Recommendation :=
    if bed_stress > 80 ∨ staff_risk > 70 then
      { title := "Implement Real-time Capacity Dashboard"
        description := "Deploy hospital-wide capacity monitoring system with automated alerts for department heads and administrators"
        rationale := "High stress levels indicate need for better situational awareness. Real-time dashboards enable faster decision-making and proactive resource allocation. Automated alerts ensure key personnel are notified immediately when thresholds are exceeded."
        cost_estimate := 25000, impact_score := 75, priority := 3
        implementation_time := "2 weeks" }
    else
      { title := "Preventive Maintenance Review"
        description := "Conduct comprehensive review of equipment and facility maintenance to prevent unexpected capacity reductions"
        rationale := "Moderate stress levels provide opportunity for preventive measures. Equipment failures can suddenly reduce capacity during critical times. Proactive maintenance prevents emergency situations and ensures all resources remain available."
        cost_estimate := 15000, impact_score := 55, priority := 3
        implementation_time := "1 week" }
  rank_recommendations_by_impact_cost_ratio [rec1, rec2, rec3]

/-- Python `str.lower()` (per-character lowering). -/
def py_lower (s : String) : String := s.map Char.toLower

/-- The generic padding entry of `_ensure_three_recommendations`
(`Additional Capacity Measure {len(combined)}`). -/
def generic_recommendation (n : Nat) : Recommendation :=
  { title := "Additional Capacity Measure " ++ toString n
    description := "Implement additional capacity management measures based on current situation"
    rationale := "Generic recommendation to ensure minimum of 3 recommendations are provided"
    cost_estimate := 10000, impact_score := 50, priority := (n : ℤ) + 1
    implementation_time := "1 week" }

/-- The top-up loop of `_ensure_three_recommendations`: append fallback
recommendations whose lowercased title is not among the existing titles, until
three entries are collected.  The `existing_titles` set is computed once from
the original list, as in the source. -/
def add_fallbacks (combined : List Recommendation) (existing_titles : List String) :
    List Recommendation → List Recommendation
  | [] => combined
  | f :: fs =>
    if combined.length ≥ 3 then combined
    else if existing_titles.contains (py_lower f.title) then
      add_fallbacks combined existing_titles fs
    else add_fallbacks (combined ++ [f]) existing_titles fs

/-- The `while len(combined) < 3` padding loop of
`_ensure_three_recommendations`. -/
def pad_to_three (combined : List Recommendation) : List Recommendation :=
  if combined.length < 3 then
    pad_to_three (combined ++ [generic_recommendation combined.length])
  else combined
termination_by 3 - combined.length
decreasing_by simp only [List.length_append, List.length_cons, List.length_nil]; omega

/-- `PredictionEngine._ensure_three_recommendations`. -/
def ensure_three_recommendations (recommendations : List Recommendation)
    (bed_stress staff_risk : ℚ) : List Recommendation :=
  if recommendations.length = 3 then recommendations
  else if recommendations.length > 3 then
    (List.insertionSort impact_ge recommendations).take 3
  else
    let fallback_recs := generate_fallback_recommendations bed_stress staff_risk
    let existing_titles := recommendations.map (fun r => py_lower r.title)
    (pad_to_three (add_fallbacks recommendations existing_titles fallback_recs)).take 3

/-- One parsed entry of the backend's JSON recommendation array; `none` fields
model missing dictionary keys, read via `rec_data.get(key, default)`. -/
structure RecData where
  title : Option String
  description : Option String
  rationale : Option String
  cost_estimate : Option ℚ
  impact_score : Option ℚ
  priority : Option Int
  implementation_time : Option String
deriving DecidableEq, Repr

/-- The object-building loop of `_generate_ai_recommendations`
(`for i, rec_data in enumerate(recommendations_data[:3])`), with `i` carried
explicitly; defaults mirror the `dict.get` fallbacks. -/
def build_ai_recommendations : Nat → List RecData → List Recommendation
  | _, [] => []
  | i, rec_data :: rest =>
    { title := rec_data.title.getD ("Recommendation " ++ toString (i + 1))
      description := rec_data.description.getD "No description provided"
      rationale := rec_data.rationale.getD "No rationale provided"
      cost_estimate := rec_data.cost_estimate.getD 10000
      impact_score := rec_data.impact_score.getD 50
      priority := rec_data.priority.getD ((i : ℤ) + 1)
      implementation_time := rec_data.implementation_time.getD "1 week" } ::
        build_ai_recommendations (i + 1) rest

/-- `PredictionEngine._generate_ai_recommendations`: on a usable backend
response, the parsed array truncated to three entries; otherwise the
deterministic fallback recommendations. -/
def generate_ai_recommendations (bed_stress staff_risk : ℚ)
    (response : Option (List RecData)) : List Recommendation :=
  match response with
  | some recommendations_data => build_ai_recommendations 0 (recommendations_data.take 3)
  | none => generate_fallback_recommendations bed_stress staff_risk

/-- `models.CrisisLesson` (the fields used by enhancement; `similarity_score`
is only set during retrieval, which is modelled as an external input). -/
structure CrisisLesson where
  crisis_id : String
  date : Int
  crisis_description : String
  bed_stress : ℚ
  staff_risk : ℚ
  actions_taken : List String
  outcome : String
  lessons_learned : String
deriving DecidableEq, Repr

/-- Python `text.split()`: split on whitespace runs, dropping empty pieces. -/
def py_split (s : String) : List String :=
  (s.split (fun c => c.isWhitespace)).filter (fun w => w ≠ "")

/-- Python `needle in hay` on strings: substring containment. -/
def py_contains (hay needle : String) : Bool := decide (needle.data <:+: hay.data)

/-- Python `s[:n]` on a string. -/
def py_str_take (s : String) (n : Nat) : String := ⟨s.data.take n⟩

/-- `RAGSystem._extract_keywords`: lowercased words longer than three
characters that are not common stop-words. -/
def extract_keywords (text : String) : List String :=
  let common_words := ["the", "a", "an", "and", "or", "but", "in", "on", "at",
    "to", "for", "of", "with", "by"]
  (py_split (py_lower text)).filter
    (fun w => !(common_words.contains w) && decide (w.length > 3))

/-- The historical note appended for one matching `(lesson, action)` pair in
`_enhance_single_recommendation`.  The lesson date is rendered from its day
number (the source formats the datetime as `%Y-%m-%d`). -/
def historical_note (p : CrisisLesson × String) : String :=
  "Similar action taken on " ++ toString p.1.date ++ ": " ++ p.2 ++ ". " ++
    "Outcome: " ++ py_str_take p.1.outcome 80 ++ ". "

/-- `RAGSystem._enhance_single_recommendation`: keyword-match the
recommendation title against the action lists of the top three lessons and
append notes for the first two matches to the rationale; every other field is
copied unchanged. -/
def enhance_single_recommendation (recommendation : Recommendation)
    (historical_lessons : List CrisisLesson) : Recommendation :=
  let keywords := extract_keywords recommendation.title
  let relevant_actions :=
    (historical_lessons.take 3).flatMap (fun lesson =>
      (lesson.actions_taken.filter (fun action =>
        keywords.any (fun kw => py_contains (py_lower action) kw))).map
          (fun action => (lesson, action)))
  let enhanced_rationale :=
    if relevant_actions = [] then recommendation.rationale
    else
      (relevant_actions.take 2).foldl (fun acc p => acc ++ historical_note p)
        (recommendation.rationale ++ "\n\nHistorical Context: ")
  { recommendation with rationale := enhanced_rationale }

/-- `RAGSystem.enhance_recommendations`: with no historical lessons the base
recommendations are returned as-is; otherwise each one is enhanced
individually. -/
def enhance_recommendations (base_recommendations : List Recommendation)
    (historical_lessons : List CrisisLesson) : List Recommendation :=
  if historical_lessons = [] then base_recommendations
  else base_recommendations.map
    (fun rec' => enhance_single_recommendation rec' historical_lessons)

/-- `PredictionEngine._enhance_with_rag`, with the externally retrieved similar
crises passed in (`retrieve_similar_crises` queries the external store and
embedding backend; its failure or empty result is the `[]` case, on which the
source returns the recommendations unchanged). -/
def enhance_with_rag (recommendations : List Recommendation)
    (similar_crises : List CrisisLesson) : List Recommendation :=
  if similar_crises = [] then recommendations
  else enhance_recommendations recommendations similar_crises

/-- `PredictionEngine.generate_recommendations` (uncached path): AI or fallback
recommendations, corrected to exactly three entries when needed, ranked by
impact-to-cost ratio, then enhanced with retrieved crisis lessons. -/
def generate_recommendations (bed_stress staff_risk : ℚ)
    (response : Option (List RecData)) (similar_crises : List CrisisLesson) :
    List Recommendation :=
  let recommendations := generate_ai_recommendations bed_stress staff_risk response
  let recommendations :=
    if recommendations.length ≠ 3 then
      ensure_three_recommendations recommendations bed_stress staff_risk
    else recommendations
  let recommendations := rank_recommendations_by_impact_cost_ratio recommendations
  enhance_with_rag recommendations similar_crises

/-- `models.ScenarioResult` (without the textual `impact_summary`, whose
numeric ingredients are exposed through `avg_bed_stress` and the risk scores). -/
structure ScenarioResult where
  baseline_forecast : BedForecast
  scenario_forecast : BedForecast
  baseline_staff_risk : StaffRiskScore
  scenario_staff_risk : StaffRiskScore
deriving DecidableEq, Repr

/-- `PredictionEngine._apply_scenario_adjustments`: each day's predicted beds
scaled by `1 + admission_surge × 0.8` (truncated to an integer, floored at 0),
bed stress and the high-risk flag recomputed, confidences reduced by 15%.
`sick_rate` is accepted but unused, exactly as in the source. -/
def apply_scenario_adjustments (baseline_forecast : BedForecast)
    (sick_rate admission_surge : ℚ) : BedForecast :=
  let _ := sick_rate
  { predictions := baseline_forecast.predictions.map (fun prediction =>
      let adjusted_beds :=
        max 0 (pyInt ((prediction.predicted_beds : ℚ) * (1 + admission_surge * (8/10))))
      let adjusted_bed_stress := calculate_bed_stress adjusted_beds
      { date := prediction.date
        predicted_beds := adjusted_beds
        bed_stress := adjusted_bed_stress
        confidence := prediction.confidence * (85/100)
        is_high_risk := decide (adjusted_bed_stress > 85) })
    overall_confidence := baseline_forecast.overall_confidence * (85/100) }

/-- `PredictionEngine.simulate_scenario`: parameter validation first
(`ValueError` modelled as `Except.error`), then baseline forecast and staff
risk from the recent history, and the scenario recomputation with staff scaled
by `1 − sick_rate` (floored at one) and admissions by `1 + admission_surge`. -/
def simulate_scenario (sick_rate admission_surge : ℚ)
    (historical_data historical_overloads : List HospitalRecord)
    (baseDate : Int) (baseWeekday : Nat) (today : Int)
    (forecast_response : Option (List DayData)) : Except String ScenarioResult :=
  if ¬(0 ≤ sick_rate ∧ sick_rate ≤ 1/2) then
    .error "sick_rate must be between 0.0 and 0.5"
  else if ¬(-(3/10) ≤ admission_surge ∧ admission_surge ≤ 1) then
    .error "admission_surge must be between -0.3 and 1.0"
  else
    let baseline_forecast :=
      forecast_bed_demand 7 historical_data baseDate baseWeekday forecast_response
    let averages : ℚ × ℚ :=
      if historical_data ≠ [] then
        let recent_data :=
          if historical_data.length ≥ 7 then
            historical_data.drop (historical_data.length - 7)
          else historical_data
        (((recent_data.map (·.admissions)).sum : ℤ) / (recent_data.length : ℚ),
          ((recent_data.map (·.staff_on_duty)).sum : ℤ) / (recent_data.length : ℚ))
      else (100, 30)
    let baseline_staff_risk :=
      calculate_staff_risk (pyInt averages.1) (pyInt averages.2)
        historical_overloads today
    let scenario_forecast :=
      apply_scenario_adjustments baseline_forecast sick_rate admission_surge
    let scenario_staff := pyInt (averages.2 * (1 - sick_rate))
    let scenario_admissions := pyInt (averages.1 * (1 + admission_surge))
    let scenario_staff_risk :=
      calculate_staff_risk scenario_admissions (max 1 scenario_staff)
        historical_overloads today
    .ok { baseline_forecast := baseline_forecast
          scenario_forecast := scenario_forecast
          baseline_staff_risk := baseline_staff_risk
          scenario_staff_risk := scenario_staff_risk }

/-- `RAGSystem.embedding_dimension`. -/
def embedding_dimension : Nat := 768

/-- The byte-expansion step of `RAGSystem._generate_fallback_embedding`:
`text_hash * (768 // len(text_hash) + 1)` truncated to 768 bytes.  The SHA-256
digest is passed in as a byte list (the hash itself is an injective-in-practice
deterministic function of the text; every property proved here holds for an
arbitrary non-empty digest, in particular for the 32-byte SHA-256 one). -/
def expand_digest (digest : List Nat) : List Nat :=
  ((List.replicate (embedding_dimension / digest.length + 1) digest).flatten).take
    embedding_dimension

/-- The centered (pre-normalization) embedding vector: bytes scaled to
`[0, 1]` and shifted by `0.5`. -/
def centered_embedding (digest : List Nat) : List ℚ :=
  (expand_digest digest).map (fun b : ℕ => (b : ℚ) / 255 - 1/2)

/-- Sum of squares of the centered vector (the square of the L2 norm computed
by `np.linalg.norm`). -/
def embedding_norm_sq (digest : List Nat) : ℚ :=
  ((centered_embedding digest).map (fun x => x * x)).sum

/-- `RAGSystem._generate_fallback_embedding`: the centered vector divided by
its L2 norm when that norm is positive (`norm > 0 ⟺ norm² > 0`), otherwise
returned unnormalized.  The division by a real square root is the only
non-rational step, so only this final definition lives in `ℝ`. -/
noncomputable def generate_fallback_embedding (digest : List Nat) : List ℝ :=
  if 0 < embedding_norm_sq digest then
    (centered_embedding digest).map
      (fun x : ℚ => (x : ℝ) / Real.sqrt ((embedding_norm_sq digest : ℚ) : ℝ))
  else (centered_embedding digest).map (fun x : ℚ => (x : ℝ))

/-- `PredictionEngine._generate_cache_key`: the pre-hash key material
`"{operation}:{':'.join(args)}"` with the `prediction:` namespace prefix.  The
MD5 digest applied in the source is a deterministic function of this string, so
two calls share a cache key whenever they build the same key material. -/
def generate_cache_key (operation : String) (args : List String) : String :=
  "prediction:" ++ operation ++ ":" ++ String.intercalate ":" args

/-- The cache key of `calculate_staff_risk`: built from the operation name and
`(predicted_admissions, current_staff)` only — the historical-overloads
argument is not part of the key. -/
def staff_risk_cache_key (predicted_admissions current_staff : ℤ) : String :=
  generate_cache_key "staff_risk" [toString predicted_admissions, toString current_staff]

/-- The cache key of `generate_recommendations`: built from the operation name
and `(bed_stress, staff_risk)` only — the historical-context argument is not
part of the key. -/
def recommendations_cache_key (bed_stress staff_risk : ℚ) : String :=
  generate_cache_key "recommendations" [toString bed_stress, toString staff_risk]

/-- `calculate_staff_risk` with its Redis read-through cache modelled as an
association list (an entry being present models "present and within its TTL").
Returns the result together with the updated cache. -/
def calculate_staff_risk_cached (cache : List (String × StaffRiskScore))
    (predicted_admissions current_staff : ℤ)
    (historical_overloads : List HospitalRecord) (today : Int) :
    StaffRiskScore × List (String × StaffRiskScore) :=
  let key := staff_risk_cache_key predicted_admissions current_staff
  match cache.lookup key with
  | some cached_result => (cached_result, cache)
  | none =>
    let result :=
      calculate_staff_risk predicted_admissions current_staff historical_overloads today
    (result, (key, result) :: cache)

/-- `generate_recommendations` with its Redis read-through cache modelled as an
association list, as in `calculate_staff_risk_cached`. -/
def generate_recommendations_cached (cache : List (String × List Recommendation))
    (bed_stress staff_risk : ℚ) (response : Option (List RecData))
    (similar_crises : List CrisisLesson) :
    List Recommendation × List (String × List Recommendation) :=
  let key := recommendations_cache_key bed_stress staff_risk
  match cache.lookup key with
  | some cached_result => (cached_result, cache)
  | none =>
    let result := generate_recommendations bed_stress staff_risk response similar_crises
    (result, (key, result) :: cache)

/-! ## Helper lemmas about forward-fill -/

/-- Forward-fill preserves the number of records. -/
theorem ffill_records_length (l : List HospitalRecord) :
    ∀ a b s, (ffill_records a b s l).length = l.length := by
  induction l with
  | nil => intro a b s; rfl
  | cons r rs ih =>
    intro a b s
    simp only [ffill_records, List.length_cons, ih]

/-- Forward-fill preserves dates in order. -/
theorem ffill_records_map_date (l : List HospitalRecord) :
    ∀ a b s, (ffill_records a b s l).map HospitalRecord.date
      = l.map HospitalRecord.date := by
  induction l with
  | nil => intro a b s; rfl
  | cons r rs ih =>
    intro a b s
    simp only [ffill_records, List.map_cons, ih]

/-- A carried fill state is acceptable when any stored value is non-negative. -/
def fill_state_ok (o : Option Int) : Prop := ∀ x, o = some x → 0 ≤ x

/-- One fill step started from an acceptable state on a value that is either
valid (non-negative) or the sentinel produces a non-negative value and an
acceptable next state. -/
theorem ffill_value_ok (o : Option Int) (v : Int) (ho : fill_state_ok o)
    (hv : 0 ≤ v ∨ v = -1) : 0 ≤ (ffill_value o v).1 ∧ fill_state_ok (ffill_value o v).2 := by
  unfold ffill_value
  by_cases h : v = -1
  · simp only [h, if_pos rfl]
    refine ⟨?_, ho⟩
    cases o with
    | none => simp [Option.getD]
    | some x => simpa [Option.getD] using ho x rfl
  · simp only [if_neg h]
    rcases hv with hv | hv
    · exact ⟨hv, fun x hx => by cases hx; exact hv⟩
    · exact absurd hv h

/-- Forward-fill from acceptable states turns a record list whose only negative
values are the sentinel `-1` into an all-non-negative record list. -/
theorem ffill_records_nonneg (l : List HospitalRecord) :
    ∀ a b s, fill_state_ok a → fill_state_ok b → fill_state_ok s →
    (∀ r ∈ l, (0 ≤ r.admissions ∨ r.admissions = -1) ∧
      (0 ≤ r.beds_occupied ∨ r.beds_occupied = -1) ∧
      (0 ≤ r.staff_on_duty ∨ r.staff_on_duty = -1)) →
    ∀ r ∈ ffill_records a b s l,
      0 ≤ r.admissions ∧ 0 ≤ r.beds_occupied ∧ 0 ≤ r.staff_on_duty := by
  induction l with
  | nil => intro a b s _ _ _ _ r hr; cases hr
  | cons x xs ih =>
    intro a b s ha hb hs hvalid r hr
    obtain ⟨hva, hvb, hvs⟩ := hvalid x (List.mem_cons_self x xs)
    have Ha := ffill_value_ok a x.admissions ha hva
    have Hb := ffill_value_ok b x.beds_occupied hb hvb
    have Hs := ffill_value_ok s x.staff_on_duty hs hvs
    rcases List.mem_cons.mp hr with hr | hr
    · subst hr; exact ⟨Ha.1, Hb.1, Hs.1⟩
    · exact ih _ _ _ Ha.2 Hb.2 Hs.2
        (fun r' hr' => hvalid r' (List.mem_cons_of_mem x hr')) r hr

/-! ## Claim C1 -/

/-- Claim C1, counterexample: `_handle_missing_data` does not make every
numeric field non-negative.  A record whose `admissions` is `-2` (negative but
not the `-1` sentinel) passes through unchanged, because the source replaces
only `[None, -1]` before forward-filling. -/
theorem C1_counterexample :
    (handle_missing_data [⟨0, -2, 3, 4, false⟩]).map HospitalRecord.admissions
      = [-2] ∧ (-2 : ℤ) < 0 := by
  constructor
  · rfl
  · decide

/-- Claim C1 (amended): `_handle_missing_data` never raises (it is total),
preserves record count and dates in order, and — provided the sentinel `-1` is
the only negative value occurring in the input's numeric fields — returns
records all of whose numeric fields are non-negative, each sentinel replaced by
the most recent prior valid value (or `0` with no prior value).  Negative
values other than `-1` pass through unchanged, so full non-negativity of the
output needs that proviso. -/
theorem C1_missing_data_repair (data : List HospitalRecord) :
    (handle_missing_data data).length = data.length ∧
    (handle_missing_data data).map HospitalRecord.date = data.map HospitalRecord.date ∧
    ((∀ r ∈ data, (0 ≤ r.admissions ∨ r.admissions = -1) ∧
        (0 ≤ r.beds_occupied ∨ r.beds_occupied = -1) ∧
        (0 ≤ r.staff_on_duty ∨ r.staff_on_duty = -1)) →
      ∀ r ∈ handle_missing_data data,
        0 ≤ r.admissions ∧ 0 ≤ r.beds_occupied ∧ 0 ≤ r.staff_on_duty) := by
  refine ⟨ffill_records_length data none none none,
    ffill_records_map_date data none none none, fun hvalid => ?_⟩
  exact ffill_records_nonneg data none none none
    (fun x hx => by cases hx) (fun x hx => by cases hx) (fun x hx => by cases hx) hvalid

/-- Claim C1, witness: the amended theorem applied to a concrete record list
containing sentinel values in every column. -/
theorem C1_missing_data_repair_witness :
    0 ≤ (⟨(1 : ℤ), 7, 5, 2, false⟩ : HospitalRecord).admissions ∧
    0 ≤ (⟨(1 : ℤ), 7, 5, 2, false⟩ : HospitalRecord).beds_occupied ∧
    0 ≤ (⟨(1 : ℤ), 7, 5, 2, false⟩ : HospitalRecord).staff_on_duty :=
  (C1_missing_data_repair [⟨0, -1, 5, 2, true⟩, ⟨1, 7, -1, -1, false⟩]).2.2
    (by decide) ⟨1, 7, 5, 2, false⟩ (by decide)

/-! ## Claim C2 -/

/-- Claim C2 (a code bug): `forecast_bed_demand` does not return exactly
`horizon_days` predictions for every backend output.  When the backend returns
a valid JSON array with only three day entries for a seven-day horizon,
`_generate_ai_forecast` returns those three entries (`forecast_data[:7]` only
truncates, never pads) and the forecast carries three predictions — violating
`BedForecast.validate`'s own `len(predictions) == 7` requirement. -/
theorem C2_short_backend_response :
    (forecast_bed_demand 7 []
        0 0 (some [⟨some 100, some 80⟩, ⟨some 120, some 70⟩, ⟨some 90, some 60⟩])
      ).predictions.length = 3 ∧ (3 : Nat) ≠ 7 := by
  constructor
  · rfl
  · decide

/-! ## Helper lemmas about ranking -/

/-- Erase the priority field (used to compare recommendation lists up to the
reassigned priorities). -/
def clear_priority (r : Recommendation) : Recommendation := { r with priority := 0 }

/-- Lengths are preserved by priority assignment. -/
theorem assign_priorities_length (l : List Recommendation) :
    ∀ n, (assign_priorities n l).length = l.length := by
  induction l with
  | nil => intro n; rfl
  | cons r rs ih => intro n; simp only [assign_priorities, List.length_cons, ih]

/-- Priority assignment writes consecutive priorities starting at `n`. -/
theorem assign_priorities_map_priority (l : List Recommendation) :
    ∀ n : ℤ, (assign_priorities n l).map (·.priority)
      = (List.range l.length).map (fun i : ℕ => n + (i : ℤ)) := by
  induction l with
  | nil => intro n; rfl
  | cons r rs ih =>
    intro n
    rw [List.length_cons, List.range_succ_eq_map, List.map_cons,
      List.map_map, assign_priorities, List.map_cons, ih (n + 1)]
    refine congrArg₂ List.cons (by simp) ?_
    refine List.map_congr_left fun a _ => ?_
    simp only [Function.comp_apply, Nat.succ_eq_add_one]
    push_cast
    ring

/-- Priority assignment does not touch the impact-to-cost ratio. -/
theorem assign_priorities_map_ratio (l : List Recommendation) :
    ∀ n, (assign_priorities n l).map impact_cost_ratio = l.map impact_cost_ratio := by
  induction l with
  | nil => intro n; rfl
  | cons r rs ih => intro n; simp only [assign_priorities, List.map_cons, ih]; rfl

/-- Priority assignment changes nothing but the priority field. -/
theorem assign_priorities_map_clear (l : List Recommendation) :
    ∀ n, (assign_priorities n l).map clear_priority = l.map clear_priority := by
  induction l with
  | nil => intro n; rfl
  | cons r rs ih => intro n; simp only [assign_priorities, List.map_cons, ih]; rfl

/-- Ranking preserves the number of recommendations. -/
theorem rank_recommendations_length (l : List Recommendation) :
    (rank_recommendations_by_impact_cost_ratio l).length = l.length := by
  unfold rank_recommendations_by_impact_cost_ratio
  rw [assign_priorities_length, List.length_insertionSort, List.length_map]

/-- Ranking reassigns the priorities `1, 2, …, n` in output order. -/
theorem rank_recommendations_map_priority (l : List Recommendation) :
    (rank_recommendations_by_impact_cost_ratio l).map (·.priority)
      = (List.range l.length).map (fun i : ℕ => 1 + (i : ℤ)) := by
  unfold rank_recommendations_by_impact_cost_ratio
  rw [assign_priorities_map_priority, List.length_insertionSort, List.length_map]

/-! ## Claim C3 -/

/-- Claim C3, counterexample: costs are not floored at 1000 for the ratio.  A
recommendation costing 500 with impact 60 is ranked first, ahead of one costing
1000 with impact 100, although under the claimed floor its ratio (60/1000)
would be strictly below the other's (100/1000): the source replaces the cost
only when it is non-positive. -/
theorem C3_counterexample :
    ((rank_recommendations_by_impact_cost_ratio
        [⟨"Rec A", "dA", "rA", 500, 60, 1, "tA"⟩,
          ⟨"Rec B", "dB", "rB", 1000, 100, 2, "tB"⟩]).map Recommendation.title
      = ["Rec A", "Rec B"]) ∧
    (⟨"Rec A", "dA", "rA", 500, 60, 1, "tA"⟩ : Recommendation).impact_score /
        max 1000 (⟨"Rec A", "dA", "rA", 500, 60, 1, "tA"⟩ : Recommendation).cost_estimate
      < (⟨"Rec B", "dB", "rB", 1000, 100, 2, "tB"⟩ : Recommendation).impact_score /
        max 1000 (⟨"Rec B", "dB", "rB", 1000, 100, 2, "tB"⟩ : Recommendation).cost_estimate := by
  constructor
  · unfold rank_recommendations_by_impact_cost_ratio
    have hadjA : adjust_cost ⟨"Rec A", "dA", "rA", 500, 60, 1, "tA"⟩
        = ⟨"Rec A", "dA", "rA", 500, 60, 1, "tA"⟩ := by
      unfold adjust_cost; norm_num
    have hadjB : adjust_cost ⟨"Rec B", "dB", "rB", 1000, 100, 2, "tB"⟩
        = ⟨"Rec B", "dB", "rB", 1000, 100, 2, "tB"⟩ := by
      unfold adjust_cost; norm_num
    have hr : ratio_ge (⟨"Rec A", "dA", "rA", 500, 60, 1, "tA"⟩ : Recommendation)
        ⟨"Rec B", "dB", "rB", 1000, 100, 2, "tB"⟩ := by
      unfold ratio_ge impact_cost_ratio; norm_num
    rw [List.map_cons, List.map_cons, List.map_nil, hadjA, hadjB]
    rw [List.insertionSort, List.insertionSort, List.insertionSort,
      List.orderedInsert, List.orderedInsert, if_pos hr]
    rfl
  · norm_num

/-- Claim C3 (amended): the ranking step replaces a recommendation's cost by
the minimum cost 1000 only when the cost is non-positive (avoiding division by
zero); it then sorts descending by impact-to-cost ratio of the (adjusted)
stored fields and reassigns priorities `1, 2, …` in that order, discarding
whatever priorities the backend supplied: the output ratios are nonincreasing,
the output priorities are exactly `1, …, n`, and up to the reassigned
priorities the output is a permutation of the cost-adjusted input. -/
theorem C3_ranking_by_impact_cost (recs : List Recommendation) :
    (rank_recommendations_by_impact_cost_ratio recs).map (·.priority)
        = (List.range recs.length).map (fun i : ℕ => 1 + (i : ℤ)) ∧
    List.Pairwise (fun x y : ℚ => y ≤ x)
        ((rank_recommendations_by_impact_cost_ratio recs).map impact_cost_ratio) ∧
    ((rank_recommendations_by_impact_cost_ratio recs).map clear_priority).Perm
        ((recs.map adjust_cost).map clear_priority) := by
  refine ⟨rank_recommendations_map_priority recs, ?_, ?_⟩
  · unfold rank_recommendations_by_impact_cost_ratio
    rw [assign_priorities_map_ratio]
    exact (List.sorted_insertionSort ratio_ge (recs.map adjust_cost)).map
      impact_cost_ratio fun _ _ h => h
  · unfold rank_recommendations_by_impact_cost_ratio
    rw [assign_priorities_map_clear]
    exact (List.perm_insertionSort ratio_ge (recs.map adjust_cost)).map clear_priority

/-! ## Helper lemmas about the three-recommendation contract -/

/-- The while-loop padding of `_ensure_three_recommendations` reaches at least
three entries (fuel-indexed auxiliary form). -/
theorem three_le_length_pad_aux :
    ∀ (k : ℕ) (l : List Recommendation), 3 - l.length ≤ k →
      3 ≤ (pad_to_three l).length := by
  intro k
  induction k with
  | zero =>
    intro l h
    rw [pad_to_three]
    rw [if_neg (by omega)]
    omega
  | succ k ih =>
    intro l h
    rw [pad_to_three]
    by_cases hl : l.length < 3
    · rw [if_pos hl]
      exact ih _ (by simp only [List.length_append, List.length_cons,
        List.length_nil]; omega)
    · rw [if_neg hl]; omega

/-- The while-loop padding of `_ensure_three_recommendations` reaches at least
three entries. -/
theorem three_le_length_pad (l : List Recommendation) :
    3 ≤ (pad_to_three l).length :=
  three_le_length_pad_aux (3 - l.length) l le_rfl

/-- `_ensure_three_recommendations` always returns exactly three entries. -/
theorem ensure_three_recommendations_length (recs : List Recommendation)
    (bed_stress staff_risk : ℚ) :
    (ensure_three_recommendations recs bed_stress staff_risk).length = 3 := by
  unfold ensure_three_recommendations
  by_cases h3 : recs.length = 3
  · rw [if_pos h3]; exact h3
  · rw [if_neg h3]
    by_cases hgt : recs.length > 3
    · rw [if_pos hgt, List.length_take, List.length_insertionSort]
      omega
    · rw [if_neg hgt, List.length_take]
      have := three_le_length_pad
        (add_fallbacks recs (recs.map fun r => py_lower r.title)
          (generate_fallback_recommendations bed_stress staff_risk))
      omega

/-- The AI-recommendation builder produces one object per parsed entry. -/
theorem build_ai_recommendations_length :
    ∀ (i : ℕ) (l : List RecData), (build_ai_recommendations i l).length = l.length := by
  intro i l
  induction l generalizing i with
  | nil => rfl
  | cons d ds ih => simp only [build_ai_recommendations, List.length_cons, ih]

/-- The fallback rule table always produces three recommendations. -/
theorem generate_fallback_recommendations_length (bed_stress staff_risk : ℚ) :
    (generate_fallback_recommendations bed_stress staff_risk).length = 3 := by
  unfold generate_fallback_recommendations
  rw [rank_recommendations_length]
  rfl

/-- Enhancement copies every field except the rationale; in particular the
priority is untouched. -/
theorem enhance_with_rag_map_priority (l : List Recommendation)
    (crises : List CrisisLesson) :
    (enhance_with_rag l crises).map (·.priority) = l.map (·.priority) := by
  unfold enhance_with_rag enhance_recommendations
  by_cases h : crises = []
  · simp [h]
  · rw [if_neg h, if_neg h, List.map_map]
    exact List.map_congr_left fun r _ => rfl

/-- Enhancement preserves the number of recommendations. -/
theorem enhance_with_rag_length (l : List Recommendation)
    (crises : List CrisisLesson) :
    (enhance_with_rag l crises).length = l.length := by
  unfold enhance_with_rag enhance_recommendations
  by_cases h : crises = []
  · simp [h]
  · rw [if_neg h, if_neg h, List.length_map]

/-! ## Claim C4 -/

/-- Claim C4: for stress levels in range (and in fact for any inputs),
`generate_recommendations` returns exactly three recommendations whose
priorities are `1, 2, 3` in order — whether the backend returned fewer than
three entries, more than three, or nothing usable at all. -/
theorem C4_exactly_three_recommendations (bed_stress staff_risk : ℚ)
    (_hb : 0 ≤ bed_stress ∧ bed_stress ≤ 100)
    (_hs : 0 ≤ staff_risk ∧ staff_risk ≤ 100)
    (response : Option (List RecData)) (similar_crises : List CrisisLesson) :
    (generate_recommendations bed_stress staff_risk response similar_crises).length = 3 ∧
    (generate_recommendations bed_stress staff_risk response similar_crises).map
      (·.priority) = [1, 2, 3] := by
  unfold generate_recommendations
  set recs1 := generate_ai_recommendations bed_stress staff_risk response with hrecs1
  set recs2 := if recs1.length ≠ 3 then
    ensure_three_recommendations recs1 bed_stress staff_risk else recs1 with hrecs2
  have h2 : recs2.length = 3 := by
    rw [hrecs2]
    by_cases h : recs1.length = 3
    · simp [h]
    · simp only [h, ne_eq, not_false_eq_true, if_pos,
        ensure_three_recommendations_length]
  constructor
  · rw [enhance_with_rag_length, rank_recommendations_length, h2]
  · rw [enhance_with_rag_map_priority, rank_recommendations_map_priority, h2]
    rfl

/-- Claim C4, witness: the contract at the concrete high-risk scenario
`bed_stress = 90`, `staff_risk = 80` with an unavailable backend and no
retrieved crises. -/
theorem C4_exactly_three_recommendations_witness :
    (generate_recommendations 90 80 none []).length = 3 ∧
    (generate_recommendations 90 80 none []).map (·.priority) = [1, 2, 3] :=
  C4_exactly_three_recommendations 90 80 (by norm_num) (by norm_num) none []

/-! ## Claim C5 -/

/-- Claim C5: `simulate_scenario` fails with a parameter-range error, before
computing anything, exactly when `sick_rate ∉ [0, 0.5]` or
`admission_surge ∉ [-0.3, 1]`; in-range parameters always proceed (they are
used as given, never clamped). -/
theorem C5_scenario_range_check (sick_rate admission_surge : ℚ)
    (historical_data historical_overloads : List HospitalRecord)
    (baseDate : Int) (baseWeekday : Nat) (today : Int)
    (forecast_response : Option (List DayData)) :
    (simulate_scenario sick_rate admission_surge historical_data historical_overloads
        baseDate baseWeekday today forecast_response).isOk = true
      ↔ ((0 ≤ sick_rate ∧ sick_rate ≤ 1/2) ∧
          (-(3/10) ≤ admission_surge ∧ admission_surge ≤ 1)) := by
  unfold simulate_scenario
  by_cases h1 : 0 ≤ sick_rate ∧ sick_rate ≤ 1/2
  · rw [if_neg (not_not_intro h1)]
    by_cases h2 : -(3/10) ≤ admission_surge ∧ admission_surge ≤ 1
    · rw [if_neg (not_not_intro h2)]
      exact iff_of_true rfl ⟨h1, h2⟩
    · rw [if_pos h2]
      exact iff_of_false (by simp [Except.isOk, Except.toBool]) fun h => h2 h.2
  · rw [if_pos h1]
    exact iff_of_false (by simp [Except.isOk, Except.toBool]) fun h => h1 h.1

/-! ## Claim C6 -/

/-- Every prediction built by the forecast loop carries
`is_high_risk = decide (bed_stress > 85)`. -/
theorem build_predictions_high_risk (baseDate : Int) :
    ∀ (i : Nat) (l : List DayData) (p : DailyPrediction),
      p ∈ build_predictions baseDate i l → p.is_high_risk = decide (p.bed_stress > 85) := by
  intro i l
  induction l generalizing i with
  | nil => intro p hp; cases hp
  | cons d ds ih =>
    intro p hp
    rcases List.mem_cons.mp hp with hp | hp
    · subst hp; rfl
    · exact ih (i + 1) p hp

/-- Claim C6: every daily prediction produced by the engine — on the AI path,
the fallback path, and after scenario adjustment — satisfies
`is_high_risk ↔ bed_stress > 85`, and every staff risk score satisfies
`is_critical ↔ risk_score > 75`. -/
theorem C6_risk_flag_invariants :
    (∀ (days_ahead : Nat) (historical_data : List HospitalRecord) (baseDate : Int)
        (baseWeekday : Nat) (response : Option (List DayData)),
      ∀ p ∈ (forecast_bed_demand days_ahead historical_data baseDate baseWeekday
        response).predictions, (p.is_high_risk = true ↔ 85 < p.bed_stress)) ∧
    (∀ (baseline_forecast : BedForecast) (sick_rate admission_surge : ℚ),
      ∀ p ∈ (apply_scenario_adjustments baseline_forecast sick_rate
        admission_surge).predictions, (p.is_high_risk = true ↔ 85 < p.bed_stress)) ∧
    (∀ (predicted_admissions current_staff : ℤ)
        (historical_overloads : List HospitalRecord) (today : Int),
      ((calculate_staff_risk predicted_admissions current_staff historical_overloads
          today).is_critical = true ↔
        75 < (calculate_staff_risk predicted_admissions current_staff historical_overloads
          today).risk_score)) := by
  refine ⟨?_, ?_, ?_⟩
  · intro days_ahead historical_data baseDate baseWeekday response p hp
    have h := build_predictions_high_risk baseDate 0 _ p hp
    rw [h, decide_eq_true_eq]
  · intro baseline_forecast sick_rate admission_surge p hp
    unfold apply_scenario_adjustments at hp
    obtain ⟨q, _, hq⟩ := List.mem_map.mp hp
    rw [← hq, decide_eq_true_eq]
  · intro predicted_admissions current_staff historical_overloads today
    rw [show (calculate_staff_risk predicted_admissions current_staff
      historical_overloads today).is_critical = decide (75 < (calculate_staff_risk
      predicted_admissions current_staff historical_overloads today).risk_score)
      from rfl, decide_eq_true_eq]

/-- Concrete evaluation of a one-day forecast from an empty history and a
backend response predicting zero beds: used to witness the flag invariant. -/
theorem forecast_one_entry_zero :
    forecast_bed_demand 1 [] 0 0 (some [⟨some 0, some 50⟩])
      = { predictions := [⟨1, 0, 0, 50, false⟩], overall_confidence := 24 } := by
  have hc : calculate_bed_stress 0 = 0 := by
    unfold calculate_bed_stress total_bed_capacity
    norm_num
  have hd : decide (calculate_bed_stress 0 > 85) = false := by
    rw [hc]; norm_num
  unfold forecast_bed_demand
  simp only [show handle_missing_data [] = [] from rfl,
    show generate_ai_forecast [] 1 0 (some [⟨some 0, some 50⟩])
      = [⟨some 0, some 50⟩] from rfl]
  unfold build_predictions build_predictions
  unfold calculate_confidence assess_data_quality assess_data_completeness
  simp only [Option.getD]
  norm_num [hc, hd, GT.gt]

/-- Claim C6, witness: the flag invariant read off the concrete prediction of
`forecast_one_entry_zero`. -/
theorem C6_risk_flag_invariants_witness :
    ((⟨1, 0, 0, 50, false⟩ : DailyPrediction).is_high_risk = true)
      ↔ 85 < (⟨1, 0, 0, 50, false⟩ : DailyPrediction).bed_stress :=
  C6_risk_flag_invariants.1 1 [] 0 0 (some [⟨some 0, some 50⟩]) ⟨1, 0, 0, 50, false⟩
    (by rw [forecast_one_entry_zero]; exact List.mem_singleton.mpr rfl)

/-! ## Helper lemmas about truncation and bed stress -/

/-- Python truncation agrees with the identity on integers. -/
theorem pyInt_intCast (a : ℤ) : pyInt (a : ℚ) = a := by
  unfold pyInt
  by_cases h : (0 : ℚ) ≤ (a : ℚ)
  · rw [if_pos h, Int.floor_intCast]
  · rw [if_neg h, show (-(a : ℚ)) = ((-a : ℤ) : ℚ) by push_cast; ring,
      Int.floor_intCast, neg_neg]

/-- Python truncation of zero. -/
theorem pyInt_zero : pyInt 0 = 0 := by
  unfold pyInt
  norm_num

/-- Python truncation of a non-negative rational is its floor. -/
theorem pyInt_nonneg_floor (q : ℚ) (h : 0 ≤ q) : pyInt q = ⌊q⌋ := if_pos h

/-- Python truncation of a non-positive rational is non-positive. -/
theorem pyInt_nonpos (q : ℚ) (h : q ≤ 0) : pyInt q ≤ 0 := by
  unfold pyInt
  by_cases h0 : 0 ≤ q
  · rw [if_pos h0]
    calc ⌊q⌋ ≤ ⌊(0 : ℚ)⌋ := Int.floor_mono h
    _ = 0 := Int.floor_zero
  · rw [if_neg h0]
    exact neg_nonpos.mpr (Int.floor_nonneg.mpr (neg_nonneg.mpr h))

/-- Bed stress in closed form: with the default 500-bed capacity the percentage
is `beds / 5`, clamped to `[0, 100]`. -/
theorem calculate_bed_stress_eq (b : ℤ) :
    calculate_bed_stress b = max 0 (min 100 ((b : ℚ) / 5)) := by
  unfold calculate_bed_stress total_bed_capacity
  rw [if_neg (by norm_num)]
  rw [show ((b : ℚ) / (((500 : ℤ) : ℚ)) * 100) = (b : ℚ) / 5 by push_cast; ring]

/-- Bed stress of an empty ward is zero. -/
theorem calculate_bed_stress_zero : calculate_bed_stress 0 = 0 := by
  rw [calculate_bed_stress_eq]
  norm_num

/-- Bed stress is never negative. -/
theorem calculate_bed_stress_nonneg (b : ℤ) : 0 ≤ calculate_bed_stress b := by
  rw [calculate_bed_stress_eq]
  exact le_max_left 0 _

/-- Bed stress is monotone in the occupied beds. -/
theorem calculate_bed_stress_mono {a b : ℤ} (h : a ≤ b) :
    calculate_bed_stress a ≤ calculate_bed_stress b := by
  rw [calculate_bed_stress_eq, calculate_bed_stress_eq]
  have hab : (a : ℚ) ≤ (b : ℚ) := by exact_mod_cast h
  have : (a : ℚ) / 5 ≤ (b : ℚ) / 5 := by gcongr
  exact max_le_max le_rfl (min_le_min le_rfl this)

/-! ## Helper lemmas about scenario stress adjustment -/

/-- With `admission_surge = -0.3` the adjusted stress of a day never exceeds
the baseline stress of that day. -/
theorem scenario_stress_le_of_surge_down (b : ℤ) :
    calculate_bed_stress (max 0 (pyInt ((b : ℚ) * (1 + -(3/10) * (8/10)))))
      ≤ calculate_bed_stress b := by
  rw [show (1 + -(3/10) * (8/10) : ℚ) = 19/25 by norm_num]
  by_cases hb : 0 ≤ b
  · have hb' : (0 : ℚ) ≤ (b : ℚ) := by exact_mod_cast hb
    have hq : (0 : ℚ) ≤ (b : ℚ) * (19/25) := by positivity
    rw [pyInt_nonneg_floor _ hq, max_eq_right (Int.floor_nonneg.mpr hq)]
    refine calculate_bed_stress_mono ?_
    calc ⌊(b : ℚ) * (19/25)⌋ ≤ ⌊((b : ℤ) : ℚ)⌋ := Int.floor_mono (by nlinarith)
    _ = b := Int.floor_intCast b
  · push_neg at hb
    have hb' : (b : ℚ) < 0 := by exact_mod_cast hb
    have hq : (b : ℚ) * (19/25) ≤ 0 := by nlinarith
    rw [max_eq_left (pyInt_nonpos _ hq), calculate_bed_stress_zero]
    exact calculate_bed_stress_nonneg b

/-- With `admission_surge = -0.3` the adjusted stress of a day is strictly
below the baseline stress whenever the day's beds lie in `[1, 657]` (so the
scaled value both loses at least one bed and stays below the 100% clamp). -/
theorem scenario_stress_lt_of_surge_down (b : ℤ) (h1 : 1 ≤ b) (h2 : b ≤ 657) :
    calculate_bed_stress (max 0 (pyInt ((b : ℚ) * (1 + -(3/10) * (8/10)))))
      < calculate_bed_stress b := by
  rw [show (1 + -(3/10) * (8/10) : ℚ) = 19/25 by norm_num]
  have hb' : (1 : ℚ) ≤ (b : ℚ) := by exact_mod_cast h1
  have hq : (0 : ℚ) ≤ (b : ℚ) * (19/25) := by nlinarith
  rw [pyInt_nonneg_floor _ hq, max_eq_right (Int.floor_nonneg.mpr hq)]
  have hm0 : (0 : ℤ) ≤ ⌊(b : ℚ) * (19/25)⌋ := Int.floor_nonneg.mpr hq
  have hmb : ⌊(b : ℚ) * (19/25)⌋ < b := Int.floor_lt.mpr (by nlinarith)
  have hm499 : ⌊(b : ℚ) * (19/25)⌋ ≤ 499 := by
    calc ⌊(b : ℚ) * (19/25)⌋ ≤ ⌊(657 : ℚ) * (19/25)⌋ :=
      Int.floor_mono (by nlinarith [show (b : ℚ) ≤ 657 from by exact_mod_cast h2])
    _ = 499 := by norm_num [Int.floor_eq_iff]
  rw [calculate_bed_stress_eq, calculate_bed_stress_eq]
  have hm5 : (⌊(b : ℚ) * (19/25)⌋ : ℚ) / 5 < 100 := by
    have : ((⌊(b : ℚ) * (19/25)⌋ : ℤ) : ℚ) ≤ 499 := by exact_mod_cast hm499
    linarith
  have hm5' : (0 : ℚ) ≤ (⌊(b : ℚ) * (19/25)⌋ : ℚ) / 5 := by
    have : (0 : ℚ) ≤ ((⌊(b : ℚ) * (19/25)⌋ : ℤ) : ℚ) := by exact_mod_cast hm0
    linarith
  rw [min_eq_right hm5.le, max_eq_right hm5']
  refine lt_of_lt_of_le (lt_min hm5 ?_) (le_max_right 0 _)
  have : ((⌊(b : ℚ) * (19/25)⌋ : ℤ) : ℚ) < (b : ℚ) := by exact_mod_cast hmb
  linarith

/-- With `admission_surge = 1` the adjusted stress of a day is at least the
baseline stress of that day. -/
theorem scenario_stress_ge_of_surge_up (b : ℤ) :
    calculate_bed_stress b
      ≤ calculate_bed_stress (max 0 (pyInt ((b : ℚ) * (1 + 1 * (8/10))))) := by
  rw [show (1 + 1 * (8/10) : ℚ) = 9/5 by norm_num]
  by_cases hb : 0 ≤ b
  · have hb' : (0 : ℚ) ≤ (b : ℚ) := by exact_mod_cast hb
    have hq : (0 : ℚ) ≤ (b : ℚ) * (9/5) := by positivity
    rw [pyInt_nonneg_floor _ hq, max_eq_right (Int.floor_nonneg.mpr hq)]
    refine calculate_bed_stress_mono (Int.le_floor.mpr ?_)
    nlinarith
  · push_neg at hb
    have hb' : (b : ℚ) < 0 := by exact_mod_cast hb
    have hzero : calculate_bed_stress b = 0 := by
      rw [calculate_bed_stress_eq, max_eq_left]
      exact min_le_of_right_le (by linarith)
    rw [hzero]
    exact calculate_bed_stress_nonneg _

/-- With `admission_surge = 1` the adjusted stress of a day is strictly above
the baseline stress whenever the day's beds lie in `[2, 499]` (so the scaled
value gains at least one bed while the baseline is below the 100% clamp). -/
theorem scenario_stress_gt_of_surge_up (b : ℤ) (h1 : 2 ≤ b) (h2 : b ≤ 499) :
    calculate_bed_stress b
      < calculate_bed_stress (max 0 (pyInt ((b : ℚ) * (1 + 1 * (8/10))))) := by
  rw [show (1 + 1 * (8/10) : ℚ) = 9/5 by norm_num]
  have hb' : (2 : ℚ) ≤ (b : ℚ) := by exact_mod_cast h1
  have hq : (0 : ℚ) ≤ (b : ℚ) * (9/5) := by nlinarith
  rw [pyInt_nonneg_floor _ hq, max_eq_right (Int.floor_nonneg.mpr hq)]
  have hbm : b + 1 ≤ ⌊(b : ℚ) * (9/5)⌋ := Int.le_floor.mpr (by push_cast; nlinarith)
  rw [calculate_bed_stress_eq, calculate_bed_stress_eq]
  have hb100 : (b : ℚ) / 5 < 100 := by
    have : (b : ℚ) ≤ 499 := by exact_mod_cast h2
    linarith
  have hb0 : (0 : ℚ) ≤ (b : ℚ) / 5 := by linarith
  rw [min_eq_right hb100.le, max_eq_right hb0]
  refine lt_of_lt_of_le (lt_min hb100 ?_) (le_max_right 0 _)
  have : ((b : ℚ) + 1) ≤ ((⌊(b : ℚ) * (9/5)⌋ : ℤ) : ℚ) := by exact_mod_cast hbm
  linarith

/-! ## Helper lemmas about staff risk -/

/-- The risk score of `calculate_staff_risk`, read off the definition. -/
theorem calculate_staff_risk_risk_score (predicted_admissions current_staff : ℤ)
    (historical_overloads : List HospitalRecord) (today : Int) :
    (calculate_staff_risk predicted_admissions current_staff historical_overloads
        today).risk_score
      = max 0 (min 100 (calculate_base_staff_risk predicted_admissions current_staff
          * (6/10) + analyze_overload_patterns predicted_admissions current_staff
          historical_overloads * (4/10))) := rfl

/-- With no historical overloads the pattern risk defaults to 50. -/
theorem analyze_overload_patterns_nil (predicted_admissions current_staff : ℤ) :
    analyze_overload_patterns predicted_admissions current_staff [] = 50 := by
  unfold analyze_overload_patterns
  rw [if_pos rfl]

/-- In the severely-understaffed region (`ratio < 0.2`) the base risk is the
affine function `80 + (0.2 − ratio)·100` of the staff-per-admission ratio. -/
theorem base_staff_risk_critical_region (predicted_admissions current_staff : ℤ)
    (hstaff : 0 < current_staff)
    (hr : (current_staff : ℚ) / ((max 1 predicted_admissions : ℤ) : ℚ) < 1/5) :
    calculate_base_staff_risk predicted_admissions current_staff
      = 80 + (1/5 - (current_staff : ℚ) / ((max 1 predicted_admissions : ℤ) : ℚ)) * 100 := by
  have hM0 : (0 : ℚ) < ((max 1 predicted_admissions : ℤ) : ℚ) := by
    exact_mod_cast lt_of_lt_of_le one_pos (le_max_left 1 predicted_admissions)
  have hrpos : 0 < (current_staff : ℚ) / ((max 1 predicted_admissions : ℤ) : ℚ) :=
    div_pos (by exact_mod_cast hstaff) hM0
  unfold calculate_base_staff_risk
  rw [if_neg (not_le.mpr hstaff)]
  simp only
  rw [if_neg (not_le.mpr (lt_trans hr (by norm_num))),
    if_neg (not_le.mpr (lt_trans hr (by norm_num))), if_neg (not_le.mpr hr),
    min_eq_right (by linarith)]

/-! ## Claim C7 -/

/-- Claim C7, counterexample: the strict monotonicity claims fail on boundary
inputs.  On a baseline forecast predicting zero beds, `admission_surge = -0.3`
leaves the average bed stress unchanged (0), and with a 7-day average of one
staff member, `sick_rate = 0.5` leaves the scenario staff (floored at one) and
hence the staff risk exactly equal to the baseline. -/
theorem C7_counterexample :
    (¬ avg_bed_stress (apply_scenario_adjustments
        (forecast_bed_demand 1 [] 0 0 (some [⟨some 0, some 50⟩])) 0 (-(3/10)))
      < avg_bed_stress (forecast_bed_demand 1 [] 0 0 (some [⟨some 0, some 50⟩]))) ∧
    (¬ (calculate_staff_risk 100 1 [] 0).risk_score <
      (calculate_staff_risk (pyInt ((100 : ℚ) * (1 + 0)))
        (max 1 (pyInt ((1 : ℚ) * (1 - 1/2)))) [] 0).risk_score) := by
  constructor
  · rw [forecast_one_entry_zero]
    have hz : max 0 (pyInt (((0 : ℤ) : ℚ) * (1 + -(3/10) * (8/10)))) = 0 := by
      rw [show (((0 : ℤ) : ℚ) * (1 + -(3/10) * (8/10))) = (0 : ℚ) by push_cast; ring,
        pyInt_zero]
      norm_num
    unfold apply_scenario_adjustments avg_bed_stress
    simp only [List.map_cons, List.map_nil, hz, calculate_bed_stress_zero]
    norm_num
  · rw [show pyInt ((100 : ℚ) * (1 + 0)) = 100 by
      rw [show ((100 : ℚ) * (1 + 0)) = ((100 : ℤ) : ℚ) by push_cast; ring,
        pyInt_intCast]]
    rw [show max 1 (pyInt ((1 : ℚ) * (1 - 1/2))) = 1 by
      rw [show ((1 : ℚ) * (1 - 1/2)) = (1/2 : ℚ) by ring]
      rw [pyInt_nonneg_floor _ (by norm_num), show ⌊(1/2 : ℚ)⌋ = 0 by
        norm_num [Int.floor_eq_iff]]
      norm_num]
    exact lt_irrefl _

/-- Claim C7 (amended): the scenario comparisons are strict away from the
boundary cases the counterexample exhibits.  For a baseline forecast whose
stress fields are consistent with its bed counts (as every engine-produced
forecast is): `admission_surge = -0.3` strictly lowers the average bed stress
provided some day has between 1 and 657 predicted beds (the scaled value loses
a bed and stays below the 100% clamp), and `admission_surge = 1` strictly
raises it provided some day has between 2 and 499 predicted beds.  For the
staff-risk recomputation with `sick_rate = 0.5` and no surge: the scenario
risk is strictly greater provided the halved staff figure (floored at one)
actually falls below the baseline staff and the baseline staffing ratio is in
the severely-understaffed region (below 0.2), with no historical overloads. -/
theorem C7_scenario_monotonicity :
    (∀ (f : BedForecast) (sick_rate : ℚ),
      (∀ p ∈ f.predictions, p.bed_stress = calculate_bed_stress p.predicted_beds) →
      (∃ p ∈ f.predictions, 1 ≤ p.predicted_beds ∧ p.predicted_beds ≤ 657) →
      avg_bed_stress (apply_scenario_adjustments f sick_rate (-(3/10)))
        < avg_bed_stress f) ∧
    (∀ (f : BedForecast) (sick_rate : ℚ),
      (∀ p ∈ f.predictions, p.bed_stress = calculate_bed_stress p.predicted_beds) →
      (∃ p ∈ f.predictions, 2 ≤ p.predicted_beds ∧ p.predicted_beds ≤ 499) →
      avg_bed_stress f
        < avg_bed_stress (apply_scenario_adjustments f sick_rate 1)) ∧
    (∀ (avg_admissions avg_staff : ℤ) (today : Int),
      max 1 (pyInt ((avg_staff : ℚ) * (1 - 1/2))) < avg_staff →
      (avg_staff : ℚ) / ((max 1 avg_admissions : ℤ) : ℚ) < 1/5 →
      (calculate_staff_risk avg_admissions avg_staff [] today).risk_score <
        (calculate_staff_risk (pyInt ((avg_admissions : ℚ) * (1 + 0)))
          (max 1 (pyInt ((avg_staff : ℚ) * (1 - 1/2)))) [] today).risk_score) := by
  refine ⟨?_, ?_, ?_⟩
  · intro f sick_rate hcons hex
    have hlen : 0 < (f.predictions.length : ℚ) := by
      obtain ⟨p, hp, -⟩ := hex
      exact_mod_cast List.length_pos.mpr (List.ne_nil_of_mem hp)
    unfold apply_scenario_adjustments avg_bed_stress
    simp only [List.map_map, List.length_map, Function.comp]
    rw [div_lt_div_iff_of_pos_right hlen,
      List.map_congr_left hcons]
    refine List.sum_lt_sum _ _ (fun p _ => scenario_stress_le_of_surge_down
      p.predicted_beds) ?_
    obtain ⟨p, hp, h1, h2⟩ := hex
    exact ⟨p, hp, scenario_stress_lt_of_surge_down p.predicted_beds h1 h2⟩
  · intro f sick_rate hcons hex
    have hlen : 0 < (f.predictions.length : ℚ) := by
      obtain ⟨p, hp, -⟩ := hex
      exact_mod_cast List.length_pos.mpr (List.ne_nil_of_mem hp)
    unfold apply_scenario_adjustments avg_bed_stress
    simp only [List.map_map, List.length_map, Function.comp]
    rw [div_lt_div_iff_of_pos_right hlen,
      List.map_congr_left hcons]
    refine List.sum_lt_sum _ _ (fun p _ => scenario_stress_ge_of_surge_up
      p.predicted_beds) ?_
    obtain ⟨p, hp, h1, h2⟩ := hex
    exact ⟨p, hp, scenario_stress_gt_of_surge_up p.predicted_beds h1 h2⟩
  · intro avg_admissions avg_staff today h2 h3
    rw [show pyInt ((avg_admissions : ℚ) * (1 + 0)) = avg_admissions by
      rw [show ((avg_admissions : ℚ) * (1 + 0)) = ((avg_admissions : ℤ) : ℚ) by
        ring, pyInt_intCast]]
    set t := max 1 (pyInt ((avg_staff : ℚ) * (1 - 1/2))) with ht
    have ht1 : 1 ≤ t := le_max_left 1 _
    have hts : t < avg_staff := h2
    have hs0 : 0 < avg_staff := lt_of_le_of_lt (le_trans zero_le_one ht1) hts
    have hM0 : (0 : ℚ) < ((max 1 avg_admissions : ℤ) : ℚ) := by
      exact_mod_cast lt_of_lt_of_le one_pos (le_max_left 1 avg_admissions)
    have hrt : (t : ℚ) / ((max 1 avg_admissions : ℤ) : ℚ)
        < (avg_staff : ℚ) / ((max 1 avg_admissions : ℤ) : ℚ) :=
      (div_lt_div_iff_of_pos_right hM0).mpr (by exact_mod_cast hts)
    have hrt5 : (t : ℚ) / ((max 1 avg_admissions : ℤ) : ℚ) < 1/5 := lt_trans hrt h3
    have hrbpos : 0 < (avg_staff : ℚ) / ((max 1 avg_admissions : ℤ) : ℚ) :=
      div_pos (by exact_mod_cast hs0) hM0
    have hrtpos : 0 < (t : ℚ) / ((max 1 avg_admissions : ℤ) : ℚ) :=
      div_pos (by exact_mod_cast lt_of_lt_of_le one_pos ht1) hM0
    rw [calculate_staff_risk_risk_score, calculate_staff_risk_risk_score,
      analyze_overload_patterns_nil, analyze_overload_patterns_nil,
      base_staff_risk_critical_region avg_admissions avg_staff hs0 h3,
      base_staff_risk_critical_region avg_admissions t
        (lt_of_lt_of_le one_pos ht1) hrt5]
    set rb := (avg_staff : ℚ) / ((max 1 avg_admissions : ℤ) : ℚ) with hrb
    set rt := (t : ℚ) / ((max 1 avg_admissions : ℤ) : ℚ) with hrtdef
    rw [min_eq_right (by linarith), min_eq_right (by linarith),
      max_eq_right (by linarith), max_eq_right (by linarith)]
    linarith

/-- Concrete evaluation of a one-day forecast from an empty history and a
backend response predicting a hundred beds: used to witness the scenario
monotonicity. -/
theorem forecast_one_entry_hundred :
    forecast_bed_demand 1 [] 0 0 (some [⟨some 100, some 50⟩])
      = { predictions := [⟨1, 100, 20, 50, false⟩], overall_confidence := 24 } := by
  have hc : calculate_bed_stress 100 = 20 := by
    rw [calculate_bed_stress_eq]
    norm_num
  have hd : decide (calculate_bed_stress 100 > 85) = false := by
    rw [hc]; norm_num
  unfold forecast_bed_demand
  simp only [show handle_missing_data [] = [] from rfl,
    show generate_ai_forecast [] 1 0 (some [⟨some 100, some 50⟩])
      = [⟨some 100, some 50⟩] from rfl]
  unfold build_predictions build_predictions
  unfold calculate_confidence assess_data_quality assess_data_completeness
  simp only [Option.getD]
  norm_num [hc, hd, GT.gt]

/-- Claim C7, witness: the amended monotonicity at a concrete baseline with a
hundred predicted beds, and the staff-risk part at a baseline of 100 average
admissions and 2 average staff. -/
theorem C7_scenario_monotonicity_witness :
    (avg_bed_stress (apply_scenario_adjustments
        (forecast_bed_demand 1 [] 0 0 (some [⟨some 100, some 50⟩])) 0 (-(3/10)))
      < avg_bed_stress (forecast_bed_demand 1 [] 0 0 (some [⟨some 100, some 50⟩]))) ∧
    ((calculate_staff_risk 100 2 [] 0).risk_score <
      (calculate_staff_risk (pyInt ((100 : ℚ) * (1 + 0)))
        (max 1 (pyInt ((2 : ℚ) * (1 - 1/2)))) [] 0).risk_score) := by
  constructor
  · refine C7_scenario_monotonicity.1 _ 0 ?_ ?_
    · rw [forecast_one_entry_hundred]
      intro p hp
      rw [List.mem_singleton.mp hp]
      rw [calculate_bed_stress_eq]
      norm_num
    · rw [forecast_one_entry_hundred]
      exact ⟨⟨1, 100, 20, 50, false⟩, List.mem_singleton.mpr rfl, by norm_num, by norm_num⟩
  · refine C7_scenario_monotonicity.2.2 100 2 0 ?_ ?_
    · rw [show (((2 : ℤ) : ℚ) * (1 - 1/2)) = ((1 : ℤ) : ℚ) by push_cast; ring,
        pyInt_intCast]
      norm_num
    · rw [show ((max 1 100 : ℤ) : ℚ) = 100 by norm_num]
      norm_num

/-! ## Claim C8 -/

/-- Folding note-appends onto a string that starts with `pre` keeps `pre` as a
prefix. -/
theorem foldl_historical_note_prefix (l : List (CrisisLesson × String)) :
    ∀ pre acc : String,
      ∃ s, l.foldl (fun a p => a ++ historical_note p) (pre ++ acc) = pre ++ s := by
  induction l with
  | nil => intro pre acc; exact ⟨acc, rfl⟩
  | cons x xs ih =>
    intro pre acc
    simp only [List.foldl_cons]
    rw [String.append_assoc]
    exact ih pre (acc ++ historical_note x)

/-- Single-recommendation enhancement only ever appends to the rationale. -/
theorem enhance_single_recommendation_rationale (r : Recommendation)
    (lessons : List CrisisLesson) :
    ∃ s, (enhance_single_recommendation r lessons).rationale = r.rationale ++ s := by
  unfold enhance_single_recommendation
  simp only
  split_ifs
  · exact ⟨"", by simp⟩
  · exact foldl_historical_note_prefix _ r.rationale "\n\nHistorical Context: "

/-- Claim C8: `enhance_recommendations` preserves length and order, changes no
field but the rationale — to which it can only append — and returns the
recommendations unchanged when no lessons were retrieved (it is total, so it
never raises). -/
theorem C8_enhancement_preserves_recommendations (recs : List Recommendation)
    (lessons : List CrisisLesson) :
    (enhance_recommendations recs lessons).length = recs.length ∧
    List.Forall₂ (fun orig out =>
      out.title = orig.title ∧ out.description = orig.description ∧
      out.cost_estimate = orig.cost_estimate ∧ out.impact_score = orig.impact_score ∧
      out.priority = orig.priority ∧
      out.implementation_time = orig.implementation_time ∧
      ∃ s, out.rationale = orig.rationale ++ s)
      recs (enhance_recommendations recs lessons) ∧
    (lessons = [] → enhance_recommendations recs lessons = recs) := by
  by_cases h : lessons = []
  · subst h
    have he : enhance_recommendations recs [] = recs := by
      unfold enhance_recommendations
      rw [if_pos rfl]
    refine ⟨by rw [he], ?_, fun _ => he⟩
    rw [he, List.forall₂_same]
    exact fun x _ => ⟨rfl, rfl, rfl, rfl, rfl, rfl, "", by simp⟩
  · have he : enhance_recommendations recs lessons
        = recs.map (fun r => enhance_single_recommendation r lessons) := by
      unfold enhance_recommendations
      rw [if_neg h]
    refine ⟨by rw [he, List.length_map], ?_, fun h' => absurd h' h⟩
    rw [he, List.forall₂_map_right_iff, List.forall₂_same]
    exact fun x _ => ⟨rfl, rfl, rfl, rfl, rfl, rfl,
      enhance_single_recommendation_rationale x lessons⟩

/-- Claim C8, witness: enhancement with an empty lesson list returns a concrete
recommendation list unchanged. -/
theorem C8_enhancement_preserves_recommendations_witness :
    enhance_recommendations [⟨"T", "D", "R", 1000, 50, 1, "I"⟩] []
      = [⟨"T", "D", "R", 1000, 50, 1, "I"⟩] :=
  (C8_enhancement_preserves_recommendations [⟨"T", "D", "R", 1000, 50, 1, "I"⟩] []).2.2
    rfl

/-! ## Claim C9 -/

/-- The repeated digest truncates to exactly the embedding dimension for any
non-empty digest. -/
theorem expand_digest_length (digest : List Nat) (h : digest ≠ []) :
    (expand_digest digest).length = embedding_dimension := by
  unfold expand_digest
  rw [List.length_take, List.length_flatten, List.map_replicate,
    List.sum_replicate, smul_eq_mul]
  have hL : 0 < digest.length := List.length_pos.mpr h
  refine min_eq_left ?_
  have h1 := Nat.div_add_mod embedding_dimension digest.length
  have h2 := Nat.mod_lt embedding_dimension hL
  calc embedding_dimension
      = digest.length * (embedding_dimension / digest.length)
        + embedding_dimension % digest.length := h1.symm
  _ ≤ digest.length * (embedding_dimension / digest.length) + digest.length := by
      omega
  _ = (embedding_dimension / digest.length + 1) * digest.length := by ring

/-- Sum of squares of a rationally-valued vector scaled by `1/c`, over the
reals. -/
theorem sum_sq_div_cast (l : List ℚ) (c : ℝ) :
    (l.map (fun x : ℚ => ((x : ℝ) / c) * ((x : ℝ) / c))).sum
      = (((l.map (fun x => x * x)).sum : ℚ) : ℝ) / (c * c) := by
  induction l with
  | nil => simp
  | cons x xs ih =>
    simp only [List.map_cons, List.sum_cons, ih]
    push_cast
    rw [div_mul_div_comm, add_div]

/-- Claim C9: the fallback embedding is a pure function of its input digest
(hence of the hashed text), has the fixed dimensionality 768, and is exactly
unit-normalized whenever the centered vector is non-zero. -/
theorem C9_fallback_embedding_contract (digest : List Nat) (h : digest ≠ []) :
    (generate_fallback_embedding digest).length = embedding_dimension ∧
    (∀ d2, d2 = digest →
      generate_fallback_embedding d2 = generate_fallback_embedding digest) ∧
    (embedding_norm_sq digest ≠ 0 →
      ((generate_fallback_embedding digest).map (fun x => x * x)).sum = 1) := by
  have hlen : (centered_embedding digest).length = embedding_dimension := by
    unfold centered_embedding
    rw [List.length_map, expand_digest_length digest h]
  refine ⟨?_, fun d2 hd => by rw [hd], fun hS => ?_⟩
  · unfold generate_fallback_embedding
    split_ifs <;> rw [List.length_map, hlen]
  · have hS0 : 0 ≤ embedding_norm_sq digest := by
      unfold embedding_norm_sq
      refine List.sum_nonneg fun x hx => ?_
      obtain ⟨y, _, hy⟩ := List.mem_map.mp hx
      rw [← hy]
      exact mul_self_nonneg y
    have hSpos : 0 < embedding_norm_sq digest := lt_of_le_of_ne hS0 (Ne.symm hS)
    unfold generate_fallback_embedding
    rw [if_pos hSpos, List.map_map]
    simp only [Function.comp_def]
    rw [sum_sq_div_cast (centered_embedding digest)
      (Real.sqrt ((embedding_norm_sq digest : ℚ) : ℝ)),
      Real.mul_self_sqrt (by exact_mod_cast hS0),
      show ((centered_embedding digest).map (fun x => x * x)).sum
        = embedding_norm_sq digest from rfl]
    exact div_self (by exact_mod_cast hS)

/-- Claim C9, witness: the contract at the concrete one-byte digest `[0]`. -/
theorem C9_fallback_embedding_contract_witness :
    (generate_fallback_embedding [0]).length = embedding_dimension ∧
    (∀ d2, d2 = [0] →
      generate_fallback_embedding d2 = generate_fallback_embedding [0]) ∧
    (embedding_norm_sq [0] ≠ 0 →
      ((generate_fallback_embedding [0]).map (fun x => x * x)).sum = 1) :=
  C9_fallback_embedding_contract [0] (by decide)

/-! ## Claim C10 -/

/-- Claim C10: the staff-risk cache key is built from
`(predicted_admissions, current_staff)` only and the recommendation cache key
from `(bed_stress, staff_risk)` only, so a second call that differs solely in
its historical-overloads / context / backend arguments hits the entry cached by
the first call and returns the first call's result — computed from the first
call's historical data — instead of recomputing with its own. -/
theorem C10_cache_key_ignores_history (predicted_admissions current_staff : ℤ)
    (ov1 ov2 : List HospitalRecord) (today : Int)
    (bed_stress staff_risk : ℚ) (resp1 resp2 : Option (List RecData))
    (ctx1 ctx2 : List CrisisLesson) :
    ((calculate_staff_risk_cached
        (calculate_staff_risk_cached [] predicted_admissions current_staff ov1 today).2
        predicted_admissions current_staff ov2 today).1
      = calculate_staff_risk predicted_admissions current_staff ov1 today) ∧
    ((generate_recommendations_cached
        (generate_recommendations_cached [] bed_stress staff_risk resp1 ctx1).2
        bed_stress staff_risk resp2 ctx2).1
      = generate_recommendations bed_stress staff_risk resp1 ctx1) := by
  constructor
  · unfold calculate_staff_risk_cached
    simp [List.lookup]
  · unfold generate_recommendations_cached
    simp [List.lookup]

end Hospital
